import Mathlib

/-!
Shallow embedding of the Sentiguard multi-phase sentiment scoring and
alerting engine (src/analyzer.py and src/gui.py).

Modelling conventions:
* Python floats are modelled as exact rationals.  The single genuinely
  irrational operation of the pipeline, the square root inside
  statistics.stdev, is modelled as an oracle field fsqrt of the
  environment; theorems that depend on it take explicit accuracy bounds
  on the oracle at the relevant argument.
* The external ML models (Cardiff RoBERTa / VADER, the enhanced
  contextual analyzer, spaCy POS counts, sentence-transformer cosine
  similarities, the regex-based profanity stripping) are opaque
  collaborators and appear as oracle functions in the environment.
  Everything downstream of them is translated from the source.
* Module-level mutable state (rolling window, circadian file, message
  context window, result cache) is threaded explicitly through an
  AState value.
* Persisted JSON files are modelled by FileState: missing file,
  malformed (unparseable) file, or a good parsed value.
-/

namespace Sentiguard

/-! ### String primitives (Python str.lower / str.strip / slicing / the in operator) -/

def isWS (c : Char) : Bool := c = ' ' || c = '\t' || c = '\n' || c = '\r'

def trimChars (l : List Char) : List Char :=
  ((l.dropWhile isWS).reverse.dropWhile isWS).reverse

/-- Python text.strip() (ASCII whitespace). -/
def trimStr (s : String) : String := ⟨trimChars s.data⟩

/-- Python text.lower(). -/
def lowerStr (s : String) : String := ⟨s.data.map Char.toLower⟩

/-- Python text[:n]. -/
def takeStr (n : Nat) (s : String) : String := ⟨s.data.take n⟩

/-- Contiguous-sublist test on character lists; pat [] matches everywhere,
as the Python in operator does for the empty string. -/
def infixOf (pat : List Char) : List Char → Bool
  | [] => pat.isEmpty
  | c :: t => pat.isPrefixOf (c :: t) || infixOf pat t

/-- Python pat in s (substring containment). -/
def containsStr (s pat : String) : Bool := infixOf pat.data s.data

/-! ### Numeric helpers (statistics.mean / statistics.stdev, deque maxlen) -/

def mean (l : List ℚ) : ℚ := l.sum / l.length

/-- Sample variance with Bessel correction, the square of statistics.stdev. -/
def sampleVariance (l : List ℚ) : ℚ :=
  ((l.map (fun x => (x - mean l) ^ 2)).sum) / ((l.length - 1 : Nat) : ℚ)

/-- collections.deque(maxlen := cap): append on the right, evict on the left. -/
def pushCap {α : Type} (cap : Nat) (l : List α) (x : α) : List α :=
  let l2 := l ++ [x]
  l2.drop (l2.length - cap)

def countMatches (vocab : List String) (tl : String) : Nat :=
  (vocab.filter (fun w => containsStr tl w)).length

/-! ### Vocabularies (src/analyzer.py lines 60-108).  The Python set
literals are written here as lists in source order; every quantity the
code derives from a set (an any-test, a match count, a cumulative sum)
is iteration-order independent.  MODERN_IDIOMS is a Python dict, whose
insertion order the fallback matcher relies on. -/

def PROFANITY_WORDS : List String :=
  ["fuck", "shit", "damn", "hell", "ass", "bitch", "crap", "piss",
   "bastard", "dick", "cock", "pussy", "slut", "whore", "retard"]

def SARCASM_MARKERS : List String :=
  ["oh great", "yeah right", "sure thing", "totally", "obviously",
   "clearly", "brilliant", "fantastic", "wonderful", "perfect",
   "just perfect", "love it", "thanks a lot", "just what i needed"]

def CRISIS_KEYWORDS : List String :=
  ["suicide", "kill myself", "end it all", "no point", "better off dead",
   "self harm", "cut myself", "want to die", "give up", "hopeless",
   "worthless", "hate myself", "disappear forever"]

def VENTING_INDICATORS : List String :=
  ["ugh", "argh", "gah", "wtf", "fml", "smh", "jfc", "omfg",
   "i swear", "i cant", "why does", "every time", "always happens"]

def GAMING_VOCABULARY : List String :=
  ["gg", "glhf", "ggwp", "ez", "rekt", "pwned", "noob", "clutch",
   "ace", "headshot", "respawn", "loot", "nerf", "buff", "op",
   "camping", "griefing", "ganking", "farming", "speedrun",
   "ragequit", "tilted", "carried", "feeding", "stomped"]

def MODERN_IDIOMS : List (String × ℚ) :=
  [("no cap", 0.3), ("fr fr", 0.2), ("lowkey", 0.0), ("highkey", 0.1),
   ("slaps", 0.8), ("hits different", 0.6), ("bussin", 0.9), ("mid", -0.3),
   ("its giving", 0.0), ("ate", 0.7), ("slay", 0.8), ("vibe check", 0.0),
   ("main character energy", 0.6), ("rent free", -0.2),
   ("understood the assignment", 0.8),
   ("touch grass", -0.4), ("chronically online", -0.3), ("unhinged", -0.2)]

def THRESHOLD : ℚ := -0.3

def ALERT_LIMIT : Nat := 5

/-! ### Environment: startup capabilities and external-model oracles -/

structure Env where
  /-- Cardiff RoBERTa loaded at startup (otherwise the VADER fallback). -/
  cardiffAvailable : Bool
  /-- spaCy loaded at startup. -/
  spacyEnabled : Bool
  /-- sentence-transformers loaded at startup (and embedding dicts populated). -/
  embeddingsEnabled : Bool
  /-- cardiff_to_score of cardiff_pipeline applied to a (truncated) text. -/
  baseScore : String → ℚ
  /-- vader_analyzer.polarity_scores(text)["compound"]. -/
  vaderCompound : String → ℚ
  /-- enhanced_analyzer.analyze_context(text)["adjusted_compound"]. -/
  adjusted : String → ℚ
  /-- enhanced_analyzer.analyze_context(text)["needs_attention"]; consumed
  only by the diagnostic-log branch, which has no effect on the returned
  score or the modelled state. -/
  needsAttention : String → Bool
  /-- text with profanity words stripped by the word-boundary regex. -/
  cleanText : String → String
  /-- number of positive-sentiment adjectives spaCy finds. -/
  posAdjCount : String → Nat
  /-- whether spaCy finds a negative-sentiment verb. -/
  hasNegVerb : String → Bool
  /-- number of sentences spaCy segments the text into. -/
  sentenceCount : String → Nat
  /-- st_util.cos_sim of the embeddings of the two texts. -/
  cosSim : String → String → ℚ
  /-- floating-point square root (math inside statistics.stdev). -/
  fsqrt : ℚ → ℚ
  /-- datetime.now().hour. -/
  hour : Nat
  /-- whether the body of the try block in analyze_sentiment raises. -/
  fails : String → Bool

/-- Persisted JSON resource: absent file, file that does not parse, or a
good parsed value. -/
inductive FileState (α : Type) : Type
  | missing : FileState α
  | corrupt : FileState α
  | good : α → FileState α

/-- In-process and persisted analyzer state threaded through calls. -/
structure AState where
  /-- sentiment_history rolling window (deque maxlen 10). -/
  history : List ℚ
  /-- circadian_baseline.json contents. -/
  circadian : FileState (List (Nat × ℚ))
  /-- message_context_window (deque maxlen 5). -/
  contextWindow : List String
  /-- sentiment_cache dict, in insertion order (newest last). -/
  cache : List (String × ℚ)

/-! ### Phase 1: statistical analysis (src/analyzer.py lines 118-212) -/

/-- Model selection of detect_profanity_shift and analyze_sentiment:
Cardiff on the first 512 characters, else VADER on the whole text. -/
def classify (env : Env) (text : String) : ℚ :=
  if env.cardiffAvailable then env.baseScore (takeStr 512 text)
  else env.vaderCompound text

def detect_profanity_shift (env : Env) (text : String) : ℚ :=
  let tl := lowerStr text
  if !(PROFANITY_WORDS.any (fun w => containsStr tl w)) then 0
  else
    let clean := env.cleanText text
    if trimStr clean = "" then 0
    else
      let originalScore := classify env text
      let cleanScore := classify env clean
      let delta := cleanScore - originalScore
      if 0.15 < delta then -0.15
      else if delta < -0.1 then 0.1
      else 0

/-- Returns the updated rolling window, the anomaly flag and the downward
damping.  The source computes z = (score - mean) / stdev with
stdev = sqrt(variance); the square root is the fsqrt oracle. -/
def detect_statistical_anomaly (env : Env) (hist : List ℚ) (score : ℚ) :
    List ℚ × Bool × ℚ :=
  let h := pushCap 10 hist score
  if h.length < 3 then (h, false, 0)
  else
    let m := mean h
    let stdev := env.fsqrt (sampleVariance h)
    if stdev < 0.01 then (h, false, 0)
    else
      let z := (score - m) / stdev
      if z < -2 then (h, true, |z| * 0.05) else (h, false, 0)

def defaultProfile : List (Nat × ℚ) := (List.range 24).map (fun h => (h, 0))

def load_circadian_profile : FileState (List (Nat × ℚ)) → List (Nat × ℚ)
  | .good p => p
  | _ => defaultProfile

/-- Replace the value stored under a key of the profile dict. -/
def setAssoc (p : List (Nat × ℚ)) (h : Nat) (v : ℚ) : List (Nat × ℚ) :=
  p.map (fun kv => if kv.1 = h then (kv.1, v) else kv)

def update_circadian_profile (file : FileState (List (Nat × ℚ)))
    (hour : Nat) (score : ℚ) : FileState (List (Nat × ℚ)) :=
  let profile := load_circadian_profile file
  match profile.lookup hour with
  | some old => .good (setAssoc profile hour (0.1 * score + 0.9 * old))
  | none => .good (profile ++ [(hour, score)])

/-- Returns the rewritten profile file, the normalized score and the
baseline read for the current hour. -/
def normalize_by_time (env : Env) (file : FileState (List (Nat × ℚ)))
    (score : ℚ) : FileState (List (Nat × ℚ)) × ℚ × ℚ :=
  let profile := load_circadian_profile file
  let baseline := (profile.lookup env.hour).getD 0
  let deviation := score - baseline
  let normalized := score - deviation * 0.2
  (update_circadian_profile file env.hour score, normalized, baseline)

/-! ### Phase 2: linguistic intelligence (src/analyzer.py lines 218-281) -/

def detect_sarcasm_markers (env : Env) (text : String) : ℚ :=
  let tl := lowerStr text
  let adjustment : ℚ := -(0.15) * (countMatches SARCASM_MARKERS tl : ℚ)
  if !env.spacyEnabled then adjustment
  else if 3 ≤ env.posAdjCount text then
    (if env.hasNegVerb text then adjustment - 0.2 else adjustment)
  else adjustment

def check_crisis_keywords (text : String) : Bool × List String :=
  let tl := lowerStr text
  let found := CRISIS_KEYWORDS.filter (fun k => containsStr tl k)
  (!found.isEmpty, found)

def detect_venting_pattern (env : Env) (text : String) : Bool × ℚ :=
  let tl := lowerStr text
  let ventingCount := countMatches VENTING_INDICATORS tl
  if ventingCount = 0 then (false, 0)
  else if !env.spacyEnabled then
    let profanityCount := countMatches PROFANITY_WORDS tl
    if 2 ≤ profanityCount ∧ 1 ≤ ventingCount then (true, 0.1) else (false, 0)
  else if env.sentenceCount text ≤ 2 then
    (if 1 ≤ ventingCount then (true, 0.15) else (false, 0))
  else (false, 0)

/-! ### Phase 3: semantic understanding (src/analyzer.py lines 307-396) -/

def detect_gaming_context (env : Env) (text : String) : ℚ :=
  if !env.embeddingsEnabled then
    let tl := lowerStr text
    if 2 ≤ countMatches GAMING_VOCABULARY tl then 0.2 else 0
  else
    let maxSimilarity := GAMING_VOCABULARY.foldl
      (fun m p => max m (env.cosSim text p)) 0
    if 0.65 < maxSimilarity then 0.2
    else if 0.5 < maxSimilarity then 0.1
    else 0

/-- Fallback matcher: the first idiom of the dict (insertion order) that
occurs in the lowercased text wins. -/
def firstIdiom (tl : String) : List (String × ℚ) → Option String × ℚ
  | [] => (none, 0)
  | iw :: rest =>
    if containsStr tl iw.1 then (some iw.1, iw.2) else firstIdiom tl rest

def detect_modern_idioms (env : Env) (text : String) : Option String × ℚ :=
  if !env.embeddingsEnabled then firstIdiom (lowerStr text) MODERN_IDIOMS
  else
    let best := MODERN_IDIOMS.foldl
      (fun (acc : Option (String × ℚ) × ℚ) iw =>
        let similarity := env.cosSim text iw.1
        if acc.2 < similarity ∧ 0.7 < similarity then (some iw, similarity)
        else acc)
      (none, 0)
    match best.1 with
    | some iw => (some iw.1, iw.2)
    | none => (none, 0)

/-- Returns the updated context window and the rumination adjustment. -/
def analyze_with_context_window (env : Env) (window : List String)
    (text : String) : List String × ℚ :=
  let w := pushCap 5 window text
  if w.length < 2 then (w, 0)
  else if !env.embeddingsEnabled then (w, 0)
  else
    let sims := w.dropLast.map (fun prev => env.cosSim text prev)
    if 0.85 < mean sims then (w, -0.1) else (w, 0)

/-! ### Score compositor and cache (src/analyzer.py lines 414-498) -/

/-- Weighted blend of lines 444-445: Cardiff 70 percent, enhanced 30. -/
def blendedOf (env : Env) (text : String) : ℚ :=
  classify env text * 0.7 + env.adjusted text * 0.3

/-- Cache key of line 428: text.strip().lower() truncated to 100 chars. -/
def cacheKey (text : String) : String := takeStr 100 (lowerStr (trimStr text))

/-- Cache insertion of lines 485-493: under capacity, plain insert; at
capacity, keep the 80 most recent insertions then insert. -/
def cacheInsert (c : List (String × ℚ)) (k : String) (v : ℚ) :
    List (String × ℚ) :=
  if c.length < 100 then c ++ [(k, v)]
  else (c.drop (c.length - 80)) ++ [(k, v)]

/-- Body of the try block of analyze_sentiment (lines 433-493): the
phase-ordered composition of all correction layers, the clamp, and the
cache insertion.  The call to log_concerning_analysis is diagnostic I/O
only and is omitted. -/
def analyze_body (env : Env) (st : AState) (text : String) :
    ℚ × AState :=
  let blended := blendedOf env text
  let profanityAdj := detect_profanity_shift env text
  let anomaly := detect_statistical_anomaly env st.history blended
  let circ := normalize_by_time env st.circadian blended
  let phase1a := circ.2.1 + profanityAdj
  let phase1 := if anomaly.2.1 then phase1a - anomaly.2.2 else phase1a
  let sarcasmAdj := detect_sarcasm_markers env text
  let crisis := check_crisis_keywords text
  let venting := detect_venting_pattern env text
  let phase2a := phase1 + sarcasmAdj
  let phase2b := if venting.1 then phase2a + venting.2 else phase2a
  let phase2 := if crisis.1 then min phase2b (-0.7) else phase2b
  let gamingAdj := detect_gaming_context env text
  let idiom := detect_modern_idioms env text
  let ctx := analyze_with_context_window env st.contextWindow text
  let final := phase2 + gamingAdj + idiom.2 + ctx.2
  let finalClamped := max (-1) (min 1 final)
  (finalClamped,
   { history := anomaly.1
     circadian := circ.1
     contextWindow := ctx.1
     cache := cacheInsert st.cache (cacheKey text) finalClamped })

/-- analyze_sentiment, returning the score and the updated state: the
empty-input short circuit of line 424, the cache hit of lines 427-430,
and the try block.  The branch on env.fails models an exception inside
the try block, which the source converts into a returned 0.0 (the
diagnostic print and any partial state mutation before the raise are
irrelevant to the returned score). -/
def analyze_sentiment (env : Env) (st : AState) (text : String) :
    ℚ × AState :=
  if trimStr text = "" then (0, st)
  else
    match st.cache.lookup (cacheKey text) with
    | some v => (v, st)
    | none =>
      if env.fails text then (0, st)
      else analyze_body env st text

/-! ### Alert threshold engine (src/analyzer.py lines 608-640, src/gui.py
lines 38-73).  The keystroke log is an optional list of lines (none
models a missing file); the persisted alert status and the alerts log are
carried in a GuardState.  The per-line sentiment call is abstracted as a
score function. -/

/-- count_below_threshold(return_lines=True): the count of nonblank lines
scoring strictly below THRESHOLD from the stored pointer onwards, the
total number of lines, and the stripped negative lines. -/
def count_below_threshold (score : String → ℚ) (file : Option (List String))
    (lastAlertLine : Nat) : Nat × Nat × List String :=
  match file with
  | none => (0, 0, [])
  | some lines =>
    let negs := (lines.drop lastAlertLine).filterMap (fun line =>
      let l := trimStr line
      if l = "" then none
      else if score l < THRESHOLD then some l else none)
    (negs.length, lines.length, negs)

structure AlertRecord where
  date : String
  negative_count : Nat
  status : String
  reason_lines : List String
deriving DecidableEq

structure GuardState where
  /-- alerts_log.json, most recent first. -/
  alertsLog : List AlertRecord
  /-- alert_status.json last_alert_line value. -/
  lastAlertLine : Nat
deriving DecidableEq

/-- check_and_add_guardian_alert with the default alert_limit
(ALERT_LIMIT = 5): when the negative count exceeds the limit, prepend an
AlertRecord and advance the pointer to the current total line count. -/
def check_and_add_guardian_alert (score : String → ℚ) (dateStr : String)
    (file : Option (List String)) (st : GuardState) : GuardState :=
  let r := count_below_threshold score file st.lastAlertLine
  if ALERT_LIMIT < r.1 then
    { alertsLog := ⟨dateStr, r.1, "Sent", r.2.2⟩ :: st.alertsLog
      lastAlertLine := r.2.1 }
  else st

/-! ### Incremental history analyzer (src/analyzer.py lines 548-711). -/

/-- save_mood_to_history with the buffered writer: append the entry to
the in-memory buffer and, once it holds mood_buffer_size = 10 entries,
flush it (second component: the entries written to mood_history.json by
this call).  Timestamps are taken at analysis time and are outside the
embedding; an entry is modelled by its score. -/
def save_mood_to_history (buf : List ℚ) (score : ℚ) : List ℚ × List ℚ :=
  let b := buf ++ [score]
  if 10 ≤ b.length then ([], b) else (b, [])

/-- The per-line loop shared by both branches of get_day_analysis: strip,
skip blank lines, score the rest and hand each score to
save_mood_to_history.  Returns the scores in order and the final mood
buffer. -/
def scanLines (analyze : String → ℚ) (buf : List ℚ) :
    List String → List ℚ × List ℚ
  | [] => ([], buf)
  | line :: rest =>
    let l := trimStr line
    if l = "" then scanLines analyze buf rest
    else
      let score := analyze l
      let b2 := (save_mood_to_history buf score).1
      let r := scanLines analyze b2 rest
      (score :: r.1, r.2)

structure DayState where
  /-- analysis_cache. -/
  cache : List ℚ
  /-- last_file_size. -/
  lastSize : Nat
  /-- mood_buffer. -/
  buffer : List ℚ
deriving DecidableEq

/-- Byte size of the keystroke log: each line plus its newline. -/
def fileSize (lines : List String) : Nat :=
  (lines.map (fun l => l.length + 1)).sum

/-- get_day_analysis: unchanged size with a populated cache returns the
cache; a grown file with a populated cache analyzes only the lines beyond
the cached entry count; otherwise the whole file is rescanned.  Returns
the result list, the new state, and the list of scores passed to
save_mood_to_history during the call. -/
def get_day_analysis (analyze : String → ℚ) (file : Option (List String))
    (st : DayState) : List ℚ × DayState × List ℚ :=
  match file with
  | none => ([], st, [])
  | some lines =>
    let current := fileSize lines
    if current = st.lastSize ∧ st.cache ≠ [] then (st.cache, st, [])
    else if st.cache ≠ [] ∧ st.lastSize < current then
      let scan := scanLines analyze st.buffer (lines.drop st.cache.length)
      (st.cache ++ scan.1, ⟨st.cache ++ scan.1, current, scan.2⟩, scan.1)
    else
      let scan := scanLines analyze st.buffer lines
      (scan.1, ⟨scan.1, current, scan.2⟩, scan.1)

/-! ### Persistence readers (src/analyzer.py lines 608-612, 713-724).
load_circadian_profile is defined above.  get_mood_history wraps its
whole body in try/except and returns an empty history on any failure;
get_alert_status has no exception handler, so a file that exists but does
not parse raises json.JSONDecodeError to the caller, which the Except
type records. -/

def get_mood_history : FileState (List (String × ℚ)) → List (String × ℚ)
  | .good h => h
  | _ => []

def get_alert_status : FileState Nat → Except String Nat
  | .missing => .ok 0
  | .corrupt => .error "JSONDecodeError"
  | .good n => .ok n

/-! ### Circadian iteration used for the EMA-convergence property. -/

def circIter (f0 : FileState (List (Nat × ℚ))) (h : Nat) (s : ℚ) :
    Nat → FileState (List (Nat × ℚ))
  | 0 => f0
  | n + 1 => update_circadian_profile (circIter f0 h s n) h s

/-! ### Concrete environments and states used by witnesses and
counterexamples.  envFallback is the configuration in which spaCy and the
sentence-transformer are unavailable (the fallback paths of the source) and
every external-model oracle returns a neutral value. -/

def envFallback : Env :=
  { cardiffAvailable := true
    spacyEnabled := false
    embeddingsEnabled := false
    baseScore := fun _ => 0
    vaderCompound := fun _ => 0
    adjusted := fun _ => 0
    needsAttention := fun _ => false
    cleanText := fun s => s
    posAdjCount := fun _ => 0
    hasNegVerb := fun _ => false
    sentenceCount := fun _ => 1
    cosSim := fun _ _ => 0
    fsqrt := fun _ => 0
    hour := 0
    fails := fun _ => false }

def stFresh : AState :=
  { history := [], circadian := .missing, contextWindow := [], cache := [] }

/-- envFallback with a square-root oracle accurate at the one argument a
particular witness needs. -/
def envSqrtW : Env := { envFallback with fsqrt := fun _ => 2846 / 10000 }

/-- Every score stored in the result cache lies in the clamp interval.
This holds for every cache the program ever builds, since only clamped
final scores are inserted. -/
def CacheInv (st : AState) : Prop :=
  ∀ k v, st.cache.lookup k = some v → -1 ≤ v ∧ v ≤ 1

/-- Modelled from the spec: the cumulative positive enhancement
contributed by the correction layers that run after the blend, read off
as the sum of the positive parts of the individual adjustments the
compositor applies.  No such quantity is computed by the source; this
definition interprets the spec phrase so that the claimed 0.4-floor
override can be stated against the code. -/
def specPositiveEnhancement (env : Env) (st : AState) (text : String) : ℚ :=
  let blended := blendedOf env text
  let circ := normalize_by_time env st.circadian blended
  let anomaly := detect_statistical_anomaly env st.history blended
  let venting := detect_venting_pattern env text
  max 0 (detect_profanity_shift env text)
    + max 0 (circ.2.1 - blended)
    + max 0 (if anomaly.2.1 then -anomaly.2.2 else 0)
    + max 0 (detect_sarcasm_markers env text)
    + max 0 (if venting.1 then venting.2 else 0)
    + max 0 (detect_gaming_context env text)
    + max 0 (detect_modern_idioms env text).2
    + max 0 (analyze_with_context_window env st.contextWindow text).2

/-- A string of one hundred copies of the letter a followed by one tail. -/
def longA1 : String := ⟨List.replicate 100 'a' ++ "tail one".data⟩

/-- The same one hundred character normalized head with a different tail. -/
def longA2 : String := ⟨List.replicate 100 'a' ++ "completely different".data⟩

/-! ## Shared helper lemmas -/

/-- Association lookup passes to the right component of an append when the
key is absent on the left. -/
theorem lookup_append_right {α β : Type} [BEq α] (l1 l2 : List (α × β)) (k : α)
    (h : l1.lookup k = none) : (l1 ++ l2).lookup k = l2.lookup k := by
  induction l1 with
  | nil => simp
  | cons a t ih =>
    rw [List.cons_append]
    simp only [List.lookup] at h ⊢
    cases hb : (k == a.1) with
    | false =>
      simp only [hb] at h ⊢
      exact ih h
    | true =>
      rw [hb] at h
      exact absurd h (by simp)

/-- A key absent from a list is absent from every suffix. -/
theorem lookup_drop_none {α β : Type} [BEq α] (l : List (α × β)) (n : Nat) (k : α)
    (h : l.lookup k = none) : (l.drop n).lookup k = none := by
  induction l generalizing n with
  | nil => simp
  | cons a t ih =>
    cases n with
    | zero => simpa using h
    | succ m =>
      simp only [List.lookup] at h
      cases hb : (k == a.1) with
      | false =>
        rw [hb] at h
        simpa using ih m h
      | true =>
        rw [hb] at h
        exact absurd h (by simp)

/-- Inserting a fresh key into the result cache (with or without the
eviction step) makes it found with the inserted value. -/
theorem lookup_cacheInsert (c : List (String × ℚ)) (k : String) (v : ℚ)
    (h : c.lookup k = none) : (cacheInsert c k v).lookup k = some v := by
  unfold cacheInsert
  split
  · rw [lookup_append_right _ _ _ h]
    simp [List.lookup]
  · rw [lookup_append_right _ _ _ (lookup_drop_none _ _ _ h)]
    simp [List.lookup]

/-- Arithmetic core of the crisis bound: once the running score is capped
at minus 0.7, nonpositive later adjustments keep the clamped final score
at or below minus 0.7. -/
theorem clamp_crisis_bound (p g i c : ℚ) (h : g + i + c ≤ 0) :
    max (-1) (min 1 (min p (-0.7) + g + i + c)) ≤ -0.7 := by
  have h1 : min p (-0.7) ≤ -0.7 := min_le_right _ _
  have h2 : min 1 (min p (-0.7) + g + i + c) ≤ min p (-0.7) + g + i + c := min_le_right _ _
  refine max_le (by norm_num) ?_
  linarith

/-- Arithmetic core of the crisis precedence bound: the clamp is monotone
and the crisis cap bounds the phase-two score by minus 0.7 before the
additive semantic layer. -/
theorem clamp_after_crisis_mono (p g i c : ℚ) :
    max (-1) (min 1 (min p (-0.7) + g + i + c)) ≤ max (-1) (min 1 (-0.7 + g + i + c)) := by
  have h1 : min p (-0.7) ≤ -0.7 := min_le_right _ _
  exact max_le_max le_rfl (min_le_min le_rfl (by linarith))

/-- On a list of nonblank lines all scoring below THRESHOLD, the negative
filter keeps every line. -/
theorem negsLen (score : String → ℚ) (L : List String)
    (h : ∀ l ∈ L, trimStr l ≠ "" ∧ score (trimStr l) < THRESHOLD) :
    (L.filterMap (fun line =>
      if trimStr line = "" then none
      else if score (trimStr line) < THRESHOLD then some (trimStr line) else none)).length
      = L.length := by
  induction L with
  | nil => simp
  | cons a t ih =>
    have ha := h a (by simp)
    simp only [List.filterMap_cons, if_neg ha.1, if_pos ha.2, List.length_cons]
    rw [ih (fun l hl => h l (by simp [hl]))]

/-- count_below_threshold counts every line after the pointer when all of
them are nonblank and negative. -/
theorem count_below_all_neg (score : String → ℚ) (lines : List String) (start : Nat)
    (h : ∀ l ∈ lines.drop start, trimStr l ≠ "" ∧ score (trimStr l) < THRESHOLD) :
    (count_below_threshold score (some lines) start).1 = (lines.drop start).length := by
  simp only [count_below_threshold]
  exact negsLen score _ h

/-- With at most ALERT_LIMIT negatives since the pointer, the guardian
alert check leaves the state unchanged. -/
theorem check_no_trigger (score : String → ℚ) (dateStr : String)
    (file : Option (List String)) (st : GuardState)
    (h : (count_below_threshold score file st.lastAlertLine).1 ≤ ALERT_LIMIT) :
    check_and_add_guardian_alert score dateStr file st = st := by
  unfold check_and_add_guardian_alert
  rw [if_neg (not_lt_of_le h)]

/-- Appending an entry to the rolling window of nine zeros keeps all ten
entries. -/
theorem pushCap_nine_zeros (s : ℚ) :
    pushCap 10 (List.replicate 9 0) s = List.replicate 9 0 ++ [s] := by
  simp [pushCap]

/-- Closed form of the sample variance of nine zeros followed by s. -/
theorem variance_nine_zeros (s : ℚ) :
    sampleVariance (List.replicate 9 0 ++ [s]) = s ^ 2 / 10 := by
  have hm : mean (List.replicate 9 (0:ℚ) ++ [s]) = s / 10 := by
    simp [mean]
  simp only [sampleVariance, hm]
  simp [List.map_append, List.sum_append]
  ring

/-- Updating the value stored under a present key of the profile dict
stores the new value. -/
theorem lookup_setAssoc (p : List (Nat × ℚ)) (h : Nat) (v b : ℚ)
    (hb : p.lookup h = some b) : (setAssoc p h v).lookup h = some v := by
  induction p with
  | nil => simp at hb
  | cons a t ih =>
    obtain ⟨k, x⟩ := a
    rw [List.lookup_cons] at hb
    simp only [setAssoc, List.map_cons] at ih ⊢
    by_cases hk : k = h
    · subst hk
      simp only [if_pos rfl]
      simp
    · have hbeq : (h == k) = false := beq_eq_false_iff_ne.mpr (Ne.symm hk)
      rw [hbeq] at hb
      simp only [if_neg hk]
      rw [List.lookup_cons, hbeq]
      exact ih hb

/-- One circadian update replaces a stored hourly baseline by the EMA of
the new score and the old baseline. -/
theorem circ_update_lookup (f : FileState (List (Nat × ℚ))) (h : Nat) (s c : ℚ)
    (hc : (load_circadian_profile f).lookup h = some c) :
    (load_circadian_profile (update_circadian_profile f h s)).lookup h
      = some (0.1 * s + 0.9 * c) := by
  simp only [update_circadian_profile, hc]
  simp only [load_circadian_profile]
  exact lookup_setAssoc _ _ _ _ hc

/-- The byte size of the keystroke log is additive over concatenation. -/
theorem fileSize_append (l1 l2 : List String) :
    fileSize (l1 ++ l2) = fileSize l1 + fileSize l2 := by
  simp [fileSize]

/-! ## Claim theorems -/

/-- C2. For every input text, the score returned by analyze_sentiment
lies in the interval from minus 1 to 1, on the clamped normal path, on a
cache hit (given that the cache holds only clamped values, which is true
of every cache the program builds), on the empty-input short circuit, and
on the internal-exception path alike. -/
theorem analyze_sentiment_score_in_range (env : Env) (st : AState) (text : String)
    (hinv : CacheInv st) :
    -1 ≤ (analyze_sentiment env st text).1 ∧ (analyze_sentiment env st text).1 ≤ 1 := by
  unfold analyze_sentiment
  split
  · norm_num
  · rcases hc : st.cache.lookup (cacheKey text) with _ | v
    · simp only [hc]
      split
      · norm_num
      · unfold analyze_body
        refine ⟨le_max_left _ _, max_le (by norm_num) (min_le_left _ _)⟩
    · simp only [hc]
      exact hinv _ v hc

/-- C5. On a nonblank input whose analysis completes, analyze_sentiment
leaves its final score stored in the cache under the normalized key, and
any later call on the exact same string against any state that still
holds that cache entry (no matter how the rolling window, circadian
profile, context window or the rest of the cache mutated in between)
returns the identical score. -/
theorem cache_hit_idempotence (env : Env) (st : AState) (text : String)
    (hne : trimStr text ≠ "") (hok : env.fails text = false) :
    (analyze_sentiment env st text).2.cache.lookup (cacheKey text)
        = some (analyze_sentiment env st text).1
    ∧ ∀ (env2 : Env) (st2 : AState),
        st2.cache.lookup (cacheKey text) = some (analyze_sentiment env st text).1 →
        (analyze_sentiment env2 st2 text).1 = (analyze_sentiment env st text).1 := by
  constructor
  · unfold analyze_sentiment
    rw [if_neg hne]
    rcases hc : st.cache.lookup (cacheKey text) with _ | v
    · simp only [hc, hok, if_false, Bool.false_eq_true]
      unfold analyze_body
      exact lookup_cacheInsert _ _ _ hc
    · simp only [hc]
  · intro env2 st2 h2
    conv_lhs => unfold analyze_sentiment
    rw [if_neg hne, h2]

/-- C10. If the cache holds a score under the normalized key of t1, then
analyzing any nonblank t2 whose normalized 100-character key equals that
of t1 returns exactly the cached score and leaves the state untouched,
under every environment: for a cached key the result depends on nothing
beyond the normalized 100-character key. -/
theorem cache_prefix_hyperproperty (env2 : Env) (st2 : AState) (t1 t2 : String) (v : ℚ)
    (hkey : cacheKey t1 = cacheKey t2) (ht2 : trimStr t2 ≠ "")
    (hcached : st2.cache.lookup (cacheKey t1) = some v) :
    (analyze_sentiment env2 st2 t2).1 = v ∧ (analyze_sentiment env2 st2 t2).2 = st2 := by
  rw [hkey] at hcached
  unfold analyze_sentiment
  rw [if_neg ht2, hcached]
  exact ⟨rfl, rfl⟩

/-- C1 (amended). Any nonblank, uncached, non-failing input containing a
crisis phrase has its running score capped at no more than minus 0.7 at
the end of phase two; whenever the later semantic-layer adjustments
(gaming, idiom, context) sum to a nonpositive value, the final returned
score is at most minus 0.7.  (The cap alone does not bound the final
score: the semantic layer is added after it, see the counterexample.) -/
theorem crisis_cap_before_semantic_layer (env : Env) (st : AState) (text : String)
    (hne : trimStr text ≠ "")
    (hmiss : st.cache.lookup (cacheKey text) = none)
    (hok : env.fails text = false)
    (hcrisis : (check_crisis_keywords text).1 = true)
    (hpos : detect_gaming_context env text + (detect_modern_idioms env text).2
        + (analyze_with_context_window env st.contextWindow text).2 ≤ 0) :
    (analyze_sentiment env st text).1 ≤ -0.7 := by
  unfold analyze_sentiment
  rw [if_neg hne, hmiss]
  simp only [hok, Bool.false_eq_true, if_false]
  unfold analyze_body
  simp only [hcrisis, if_true]
  exact clamp_crisis_bound _ _ _ _ hpos

/-- C4 (amended). analyze_sentiment applies no strong-positive floor of
0.4: on the normal path the final score is just the clamped sum of the
layers; crisis capping is applied before the phase-three additions, so
with a crisis phrase present the final score is bounded by the clamp of
minus 0.7 plus the gaming, idiom and context adjustments, and positive
semantic signals can override the crisis cap rather than the reverse. -/
theorem final_score_bound_after_crisis (env : Env) (st : AState) (text : String)
    (hne : trimStr text ≠ "")
    (hmiss : st.cache.lookup (cacheKey text) = none)
    (hok : env.fails text = false)
    (hcrisis : (check_crisis_keywords text).1 = true) :
    (analyze_sentiment env st text).1
      ≤ max (-1) (min 1 (-0.7 + detect_gaming_context env text
          + (detect_modern_idioms env text).2
          + (analyze_with_context_window env st.contextWindow text).2)) := by
  unfold analyze_sentiment
  rw [if_neg hne, hmiss]
  simp only [hok, Bool.false_eq_true, if_false]
  unfold analyze_body
  simp only [hcrisis, if_true]
  exact clamp_after_crisis_mono _ _ _ _

/-- C3. With six nonblank lines all scoring below THRESHOLD and the alert
pointer at zero, the guardian alert check prepends an AlertRecord with
negative count six and advances the pointer to six; afterwards no
extension of the log with at most ALERT_LIMIT negatives since the pointer
triggers again, and a single appended negative line counts exactly one
negative since the pointer. -/
theorem guardian_alert_scenario (score : String → ℚ) (d1 d2 : String)
    (lines : List String) (log0 : List AlertRecord)
    (hlen : lines.length = 6)
    (hneg : ∀ l ∈ lines, trimStr l ≠ "" ∧ score (trimStr l) < THRESHOLD) :
    (check_and_add_guardian_alert score d1 (some lines) ⟨log0, 0⟩).lastAlertLine = 6
    ∧ (check_and_add_guardian_alert score d1 (some lines) ⟨log0, 0⟩).alertsLog
        = ⟨d1, 6, "Sent", (count_below_threshold score (some lines) 0).2.2⟩ :: log0
    ∧ (∀ ext : List String,
        (count_below_threshold score (some (lines ++ ext)) 6).1 ≤ ALERT_LIMIT →
        check_and_add_guardian_alert score d2 (some (lines ++ ext))
            (check_and_add_guardian_alert score d1 (some lines) ⟨log0, 0⟩)
          = check_and_add_guardian_alert score d1 (some lines) ⟨log0, 0⟩)
    ∧ (∀ l7 : String, trimStr l7 ≠ "" → score (trimStr l7) < THRESHOLD →
        (count_below_threshold score (some (lines ++ [l7])) 6).1 = 1) := by
  have hc : (count_below_threshold score (some lines) 0).1 = 6 := by
    rw [count_below_all_neg score lines 0 (by simpa using hneg)]
    simpa using hlen
  have hst : check_and_add_guardian_alert score d1 (some lines) ⟨log0, 0⟩
      = ⟨⟨d1, 6, "Sent", (count_below_threshold score (some lines) 0).2.2⟩ :: log0,
         6⟩ := by
    unfold check_and_add_guardian_alert
    rw [if_pos]
    · simp only [hc]
      have h2 : (count_below_threshold score (some lines) 0).2.1 = 6 := by
        simp [count_below_threshold, hlen]
      rw [h2]
    · rw [hc]
      norm_num [ALERT_LIMIT]
  refine ⟨by rw [hst], by rw [hst], ?_, ?_⟩
  · intro ext hle
    rw [hst]
    exact check_no_trigger _ _ _ _ hle
  · intro l7 h7a h7b
    have hdrop : (lines ++ [l7]).drop 6 = [l7] := by
      rw [← hlen, List.drop_left]
    rw [count_below_all_neg score _ 6 (by rw [hdrop]; simpa using ⟨h7a, h7b⟩)]
    rw [hdrop]
    rfl

/-- C6. Starting from a rolling window of nine zero scores, recording a
tenth score of at most minus 0.9 makes detect_statistical_anomaly report
an anomaly: the z-score of the tenth reading against the sample mean and
standard deviation of the window is below minus 2.  The hypotheses bound
the floating square-root oracle at the one variance it is applied to,
within a relative error of a tenth of a percent. -/
theorem rolling_window_anomaly (env : Env) (s : ℚ) (hs : s ≤ -0.9)
    (h0 : 0 ≤ env.fsqrt (sampleVariance (pushCap 10 (List.replicate 9 0) s)))
    (hup : (env.fsqrt (sampleVariance (pushCap 10 (List.replicate 9 0) s))) ^ 2
        ≤ 1.001 * sampleVariance (pushCap 10 (List.replicate 9 0) s))
    (hlo : 0.999 * sampleVariance (pushCap 10 (List.replicate 9 0) s)
        ≤ (env.fsqrt (sampleVariance (pushCap 10 (List.replicate 9 0) s))) ^ 2) :
    (detect_statistical_anomaly env (List.replicate 9 0) s).2.1 = true := by
  rw [pushCap_nine_zeros, variance_nine_zeros] at h0 hup hlo
  have hs2 : (0.81 : ℚ) ≤ s ^ 2 := by nlinarith
  have hfpos : ¬ (env.fsqrt (s ^ 2 / 10) < 0.01) := by
    push_neg
    nlinarith
  have hmean : mean (List.replicate 9 (0:ℚ) ++ [s]) = s / 10 := by simp [mean]
  have hz : (s - s / 10) / env.fsqrt (s ^ 2 / 10) < -2 := by
    have hfgt : (0.01 : ℚ) ≤ env.fsqrt (s ^ 2 / 10) := not_lt.mp hfpos
    have hfpos2 : (0 : ℚ) < env.fsqrt (s ^ 2 / 10) := by linarith
    rw [div_lt_iff₀ hfpos2]
    have key : 2 * env.fsqrt (s ^ 2 / 10) < -(9 / 10) * s := by
      nlinarith [hup, hs2, h0, hs]
    linarith
  unfold detect_statistical_anomaly
  rw [pushCap_nine_zeros]
  simp only [variance_nine_zeros, hmean]
  rw [if_neg (by simp), if_neg hfpos, if_pos hz]

/-- C7. update_circadian_profile replaces a stored hourly baseline b by
0.1 times the score plus 0.9 times b; iterating it n times with the same
score s leaves the baseline at s plus 0.9 to the n times the original
distance, so the distance to s contracts by the factor 0.9 on every
update and the baseline converges to s. -/
theorem circadian_ema_convergence (f : FileState (List (Nat × ℚ))) (h : Nat) (s b : ℚ)
    (hb : (load_circadian_profile f).lookup h = some b) :
    (load_circadian_profile (update_circadian_profile f h s)).lookup h
        = some (0.1 * s + 0.9 * b)
    ∧ ∀ n : Nat, (load_circadian_profile (circIter f h s n)).lookup h
        = some (s + 0.9 ^ n * (b - s)) := by
  refine ⟨circ_update_lookup f h s b hb, ?_⟩
  intro n
  induction n with
  | zero =>
    have he : s + (0.9 : ℚ) ^ 0 * (b - s) = b := by ring
    rw [he]
    exact hb
  | succ m ih =>
    have step := circ_update_lookup (circIter f h s m) h s _ ih
    rw [show circIter f h s (m + 1) = update_circadian_profile (circIter f h s m) h s from rfl]
    rw [step]
    congr 1
    ring

/-- C8 (amended). When the cached entry count equals the line count of
the previously scanned log (no blank lines) and the log grows by three
nonblank lines, get_day_analysis analyzes exactly those three lines,
passes exactly their three scores to save_mood_to_history, and appends
them to the cached result. -/
theorem history_incremental_amended (analyze : String → ℚ)
    (old : List String) (n1 n2 n3 : String) (st : DayState)
    (hclen : st.cache.length = old.length) (hcne : st.cache ≠ [])
    (hsize : st.lastSize = fileSize old)
    (h1 : trimStr n1 ≠ "") (h2 : trimStr n2 ≠ "") (h3 : trimStr n3 ≠ "") :
    (get_day_analysis analyze (some (old ++ [n1, n2, n3])) st).2.2
        = [analyze (trimStr n1), analyze (trimStr n2), analyze (trimStr n3)]
    ∧ (get_day_analysis analyze (some (old ++ [n1, n2, n3])) st).1
        = st.cache ++ [analyze (trimStr n1), analyze (trimStr n2), analyze (trimStr n3)] := by
  have hgrow : st.lastSize < fileSize (old ++ [n1, n2, n3]) := by
    rw [hsize, fileSize_append]
    have : 0 < fileSize [n1, n2, n3] := by
      simp [fileSize]
    omega
  have hne : ¬ (fileSize (old ++ [n1, n2, n3]) = st.lastSize ∧ st.cache ≠ []) := by
    rintro ⟨he, -⟩
    omega
  have hdrop : (old ++ [n1, n2, n3]).drop st.cache.length = [n1, n2, n3] := by
    rw [hclen, List.drop_left]
  have hscan1 : (scanLines analyze st.buffer [n1, n2, n3]).1
      = [analyze (trimStr n1), analyze (trimStr n2), analyze (trimStr n3)] := by
    simp [scanLines, if_neg h1, if_neg h2, if_neg h3]
  simp only [get_day_analysis]
  rw [if_neg hne, if_pos ⟨hcne, hgrow⟩, hdrop]
  constructor <;> simp [hscan1]

/-! ## Concrete counterexamples and witnesses.  The Batteries rational
operations are irreducible by default; making them semireducible in this
section lets the kernel evaluate the pipeline on concrete inputs. -/

section
attribute [local semireducible] Rat.ofScientific Rat.mul Rat.inv Rat.add Rat.sub

/-- C1 (counterexample).  The input "give up bussin gg ez" contains the
crisis phrase "give up", yet analyze_sentiment returns 0.4: the crisis
cap of minus 0.7 is applied at phase two, after which the gaming
adjustment (plus 0.2) and the idiom adjustment for bussin (plus 0.9) are
added, so the claim that every crisis-bearing input yields a final score
of at most minus 0.7 is false. -/
theorem crisis_cap_not_final_counterexample :
    (check_crisis_keywords "give up bussin gg ez").1 = true
    ∧ (analyze_sentiment envFallback stFresh "give up bussin gg ez").1 = 0.4
    ∧ ¬ ((analyze_sentiment envFallback stFresh "give up bussin gg ez").1 ≤ -0.7) := by
  decide

/-- C1 (witness).  The crisis input "give up" with zero semantic-layer
adjustments is scored at most minus 0.7. -/
theorem crisis_cap_before_semantic_layer_witness :
    (trimStr "give up" ≠ ""
      ∧ stFresh.cache.lookup (cacheKey "give up") = none
      ∧ envFallback.fails "give up" = false
      ∧ (check_crisis_keywords "give up").1 = true
      ∧ detect_gaming_context envFallback "give up"
          + (detect_modern_idioms envFallback "give up").2
          + (analyze_with_context_window envFallback stFresh.contextWindow "give up").2 ≤ 0)
    ∧ (analyze_sentiment envFallback stFresh "give up").1 ≤ -0.7 :=
  ⟨⟨by decide, by decide, by decide, by decide, by decide⟩,
   crisis_cap_before_semantic_layer envFallback stFresh "give up"
     (by decide) (by decide) (by decide) (by decide) (by decide)⟩

/-- C2 (witness).  A fresh state has a range-respecting cache, and a
concrete call stays within the interval. -/
theorem analyze_sentiment_score_in_range_witness :
    CacheInv stFresh
    ∧ (-1 ≤ (analyze_sentiment envFallback stFresh "hello world").1
        ∧ (analyze_sentiment envFallback stFresh "hello world").1 ≤ 1) :=
  ⟨fun _ v hv => absurd hv (by simp [stFresh]),
   analyze_sentiment_score_in_range envFallback stFresh "hello world"
     (fun _ v hv => absurd hv (by simp [stFresh]))⟩

/-- C3 (witness).  Six concrete negative lines trigger the alert and
advance the pointer to six. -/
theorem guardian_alert_scenario_witness :
    (["bad a", "bad b", "bad c", "bad d", "bad e", "bad f"] : List String).length = 6
    ∧ (∀ l ∈ (["bad a", "bad b", "bad c", "bad d", "bad e", "bad f"] : List String),
        trimStr l ≠ "" ∧ (fun _ => (-1 : ℚ)) (trimStr l) < THRESHOLD)
    ∧ (check_and_add_guardian_alert (fun _ => (-1 : ℚ)) "day one"
        (some ["bad a", "bad b", "bad c", "bad d", "bad e", "bad f"]) ⟨[], 0⟩).lastAlertLine = 6 :=
  ⟨by decide, by decide,
   (guardian_alert_scenario (fun _ => (-1 : ℚ)) "day one" "day two"
     ["bad a", "bad b", "bad c", "bad d", "bad e", "bad f"] []
     (by decide) (by decide)).1⟩

/-- C4 (counterexample).  On "totally obviously clearly no cap gg ez" the
blended score is 0 (at least minus 0.1) and the cumulative positive
enhancement of the later layers is 0.5 (more than 0.4), yet the final
score is 0.05, not at least 0.4: no strong-positive floor exists in
analyze_sentiment. -/
theorem strong_positive_floor_counterexample :
    -0.1 ≤ blendedOf envFallback "totally obviously clearly no cap gg ez"
    ∧ 0.4 < specPositiveEnhancement envFallback stFresh "totally obviously clearly no cap gg ez"
    ∧ (analyze_sentiment envFallback stFresh "totally obviously clearly no cap gg ez").1 = 0.05
    ∧ ¬ (0.4 ≤ (analyze_sentiment envFallback stFresh "totally obviously clearly no cap gg ez").1) := by
  decide

/-- C4 (witness).  A concrete crisis input obeys the crisis precedence
bound. -/
theorem final_score_bound_after_crisis_witness :
    (trimStr "no point anymore" ≠ ""
      ∧ stFresh.cache.lookup (cacheKey "no point anymore") = none
      ∧ envFallback.fails "no point anymore" = false
      ∧ (check_crisis_keywords "no point anymore").1 = true)
    ∧ (analyze_sentiment envFallback stFresh "no point anymore").1
        ≤ max (-1) (min 1 (-0.7 + detect_gaming_context envFallback "no point anymore"
            + (detect_modern_idioms envFallback "no point anymore").2
            + (analyze_with_context_window envFallback stFresh.contextWindow "no point anymore").2)) :=
  ⟨⟨by decide, by decide, by decide, by decide⟩,
   final_score_bound_after_crisis envFallback stFresh "no point anymore"
     (by decide) (by decide) (by decide) (by decide)⟩

/-- C5 (witness).  A concrete first call caches its score and a second
call on the same string returns it. -/
theorem cache_hit_idempotence_witness :
    (trimStr "rough day" ≠ "" ∧ envFallback.fails "rough day" = false)
    ∧ ((analyze_sentiment envFallback stFresh "rough day").2.cache.lookup (cacheKey "rough day")
        = some (analyze_sentiment envFallback stFresh "rough day").1
      ∧ ∀ (env2 : Env) (st2 : AState),
          st2.cache.lookup (cacheKey "rough day")
            = some (analyze_sentiment envFallback stFresh "rough day").1 →
          (analyze_sentiment env2 st2 "rough day").1
            = (analyze_sentiment envFallback stFresh "rough day").1) :=
  ⟨⟨by decide, by decide⟩,
   cache_hit_idempotence envFallback stFresh "rough day" (by decide) (by decide)⟩

/-- C6 (witness).  Nine zeros followed by minus 0.9, with a concrete
square-root oracle value of 0.2846 meeting the accuracy bounds, yield an
anomaly. -/
theorem rolling_window_anomaly_witness :
    ((-0.9 : ℚ) ≤ -0.9
      ∧ 0 ≤ envSqrtW.fsqrt (sampleVariance (pushCap 10 (List.replicate 9 0) (-0.9)))
      ∧ (envSqrtW.fsqrt (sampleVariance (pushCap 10 (List.replicate 9 0) (-0.9)))) ^ 2
          ≤ 1.001 * sampleVariance (pushCap 10 (List.replicate 9 0) (-0.9))
      ∧ 0.999 * sampleVariance (pushCap 10 (List.replicate 9 0) (-0.9))
          ≤ (envSqrtW.fsqrt (sampleVariance (pushCap 10 (List.replicate 9 0) (-0.9)))) ^ 2)
    ∧ (detect_statistical_anomaly envSqrtW (List.replicate 9 0) (-0.9)).2.1 = true :=
  ⟨⟨by decide, by decide, by decide, by decide⟩,
   rolling_window_anomaly envSqrtW (-0.9) (by decide) (by decide) (by decide) (by decide)⟩

/-- C7 (witness).  A stored baseline of 1 at hour 5 updated with score 0
becomes 0.1 times 0 plus 0.9 times 1. -/
theorem circadian_ema_convergence_witness :
    (load_circadian_profile (.good [(5, (1 : ℚ))])).lookup 5 = some 1
    ∧ (load_circadian_profile (update_circadian_profile (.good [(5, (1 : ℚ))]) 5 0)).lookup 5
        = some (0.1 * 0 + 0.9 * 1) :=
  ⟨by decide,
   (circadian_ema_convergence (.good [(5, (1 : ℚ))]) 5 0 1 (by decide)).1⟩

/-- C8 (counterexample).  A previously scanned log of three lines with a
blank second line caches two entries; appending three nonblank lines then
makes the incremental scan drop only two lines and re-analyze the old
third line, so save_mood_to_history is called four times, not three. -/
theorem history_cache_counterexample :
    ((get_day_analysis (fun _ => 0) (some ["a", "", "b", "c", "d", "e"])
        (get_day_analysis (fun _ => 0) (some ["a", "", "b"]) ⟨[], 0, []⟩).2.1).2.2).length = 4
    ∧ ((get_day_analysis (fun _ => 0) (some ["a", "", "b", "c", "d", "e"])
        (get_day_analysis (fun _ => 0) (some ["a", "", "b"]) ⟨[], 0, []⟩).2.1).2.2).length ≠ 3 := by
  decide

/-- C8 (witness).  A blank-free one-line log grown by three nonblank
lines produces exactly three history writes. -/
theorem history_incremental_amended_witness :
    ((⟨[0], 2, []⟩ : DayState).cache.length = (["x"] : List String).length
      ∧ (⟨[0], 2, []⟩ : DayState).cache ≠ []
      ∧ (⟨[0], 2, []⟩ : DayState).lastSize = fileSize ["x"]
      ∧ trimStr "p" ≠ "" ∧ trimStr "q" ≠ "" ∧ trimStr "r" ≠ "")
    ∧ (get_day_analysis (fun _ => (0 : ℚ)) (some (["x"] ++ ["p", "q", "r"])) ⟨[0], 2, []⟩).2.2
        = [(fun _ => (0 : ℚ)) (trimStr "p"), (fun _ => (0 : ℚ)) (trimStr "q"),
           (fun _ => (0 : ℚ)) (trimStr "r")] :=
  ⟨⟨by decide, by decide, by decide, by decide, by decide, by decide⟩,
   (history_incremental_amended (fun _ => (0 : ℚ)) ["x"] "p" "q" "r" ⟨[0], 2, []⟩
     (by decide) (by decide) (by decide) (by decide) (by decide) (by decide)).1⟩

/-- C9 (counterexample).  get_alert_status has no exception handler: on a
file that exists but holds malformed JSON it propagates the decode error
instead of returning the default of zero. -/
theorem alert_status_malformed_counterexample :
    get_alert_status FileState.corrupt = Except.error "JSONDecodeError"
    ∧ get_alert_status FileState.corrupt ≠ Except.ok 0 :=
  ⟨rfl, fun h => Except.noConfusion h⟩

/-- C9 (amended).  The circadian profile loader and the mood history
loader return their defaults (the all-zero 24-hour profile, the empty
history) on a missing or malformed file, while the alert status reader
returns its default of zero only for a missing file and raises on
malformed JSON. -/
theorem persistence_default_amended :
    load_circadian_profile FileState.corrupt = defaultProfile
    ∧ load_circadian_profile FileState.missing = defaultProfile
    ∧ get_mood_history FileState.corrupt = []
    ∧ get_mood_history FileState.missing = []
    ∧ get_alert_status FileState.missing = Except.ok 0
    ∧ get_alert_status FileState.corrupt = Except.error "JSONDecodeError" :=
  ⟨rfl, rfl, rfl, rfl, rfl, rfl⟩

/-- C10 (witness).  Two strings sharing their first hundred characters
but differing beyond them hit the same cache entry and return the cached
score unchanged. -/
theorem cache_prefix_hyperproperty_witness :
    (cacheKey longA1 = cacheKey longA2
      ∧ trimStr longA2 ≠ ""
      ∧ (AState.mk [] .missing [] [(cacheKey longA1, 0.25)]).cache.lookup (cacheKey longA1)
          = some 0.25)
    ∧ ((analyze_sentiment envFallback (AState.mk [] .missing [] [(cacheKey longA1, 0.25)]) longA2).1 = 0.25
      ∧ (analyze_sentiment envFallback (AState.mk [] .missing [] [(cacheKey longA1, 0.25)]) longA2).2
          = AState.mk [] .missing [] [(cacheKey longA1, 0.25)]) :=
  ⟨⟨by decide, by decide, by decide⟩,
   cache_prefix_hyperproperty envFallback (AState.mk [] .missing [] [(cacheKey longA1, 0.25)])
     longA1 longA2 0.25 (by decide) (by decide) (by decide)⟩

end

end Sentiguard
